import Mathlib

/-!
Verification of the asynchronous task-execution and event-distribution
subsystem of the Literature-Data-Miner web-app backend.

The Lean definitions below are a shallow embedding of the Python sources:

* `src/backend/models/task.py` — `TaskStatus`, `TaskStatusUpdate`, `TaskStage`
  (pydantic models);
* `src/backend/background/tasks.py` — `BaseTask` (Celery task wrapper:
  `send_update`, `set_stage`, `on_success`, `on_failure`) and the wrapped
  `generate_dataset_task`;
* `src/backend/core/event_bus.py` — `EventBus` (`_ensure_connected`,
  `publish`, `publish_task_update`, `listen`);
* `src/backend/api/v1/routes/sse.py` — `event_generator` (SSE delivery loop);
* `src/backend/core/websocket_manager.py` — `ConnectionManager`.

Machine floats that only carry wall-clock durations are modelled as `ℚ`;
wall-clock datetimes as `Int`.  Network effects (Redis connect/ping/publish/
subscribe outcomes) are supplied as explicit oracle parameters, so every
definition is executable.
-/

namespace LitMiner

/-- The `TaskStatus` enum, `src/backend/models/task.py` lines 7-15. -/
inductive TaskStatus where
  | PENDING
  | STARTED
  | PROGRESS
  | SUCCESS
  | FAILURE
  | REVOKED
deriving DecidableEq, Repr

/-- Value of `settings.TASK_STATUS_CHANNEL`, `src/backend/config/settings.py` line 36.
This is also the "global" channel name: `EventBus.subscribe_to_task_updates`
with no `task_id` subscribes to it directly (`event_bus.py` line 200). -/
def TASK_STATUS_CHANNEL : String := "task-status-updates"

/-- Per-task channel name `f"{settings.TASK_STATUS_CHANNEL}:{task_id}"`
(`src/backend/core/event_bus.py` line 128). -/
def taskChannel (task_id : String) : String :=
  TASK_STATUS_CHANNEL ++ ":" ++ task_id

/-- The list of channels `EventBus.publish_task_update` sends the update on
(`src/backend/core/event_bus.py` lines 126-131): the body makes exactly one
`self.publish` call, with `channel=task_specific_channel`; there is no second
send on the global channel. -/
def publish_task_update_channels (task_id : String) : List String :=
  [taskChannel task_id]

/-! Section C10: pydantic default factories in `models/task.py`

`TaskStatusUpdate.timestamp` (line 38) and `TaskStage.started_at` (line 23)
are declared as `Field(default_factory=datetime.now(timezone.utc))`: the
argument expression is *evaluated at class-definition time*, so the factory
slot holds a `datetime` value, not a callable.  pydantic invokes the factory
(`default_factory()`) only when the field is omitted at construction; calling
a `datetime` raises `TypeError`. -/

/-- A pydantic `default_factory` slot: either a zero-argument callable, or a
plain (non-callable) value that was mistakenly stored in the slot. -/
inductive DefaultFactory where
  | callableNow
  | datetimeValue (t : Int)
deriving DecidableEq, Repr

/-- Invoking a default factory at construction time (`now` is the clock at
construction).  Calling a non-callable `datetime` raises `TypeError`. -/
def callFactory (now : Int) : DefaultFactory → Except String Int
  | .callableNow => .ok now
  | .datetimeValue _ =>
      .error "TypeError: datetime.datetime object is not callable"

/-- The factory slot of `TaskStatusUpdate.timestamp`
(`models/task.py` line 38): `datetime.now(timezone.utc)` evaluated once at
class-load time (`classLoadTime`), stored as a value. -/
def timestamp_default_factory (classLoadTime : Int) : DefaultFactory :=
  .datetimeValue classLoadTime

/-- The factory slot of `TaskStage.started_at` (`models/task.py` line 23):
same shape, `datetime.now(timezone.utc)` evaluated at class-load time. -/
def started_at_default_factory (classLoadTime : Int) : DefaultFactory :=
  .datetimeValue classLoadTime

/-- Embedding of a validated `TaskStatusUpdate` record
(`models/task.py` lines 31-38); `stage` is kept as an optional label. -/
structure TaskStatusUpdateM where
  task_id : String
  status : TaskStatus
  stage : Option String
  message : Option String
  timestamp : Int
deriving DecidableEq, Repr

/-- Embedding of a validated `TaskStage` record (`models/task.py` lines 18-24). -/
structure TaskStageM where
  name : String
  description : Option String
  started_at : Int
  completed_at : Option Int
deriving DecidableEq, Repr

/-- pydantic construction of `TaskStatusUpdate`: a supplied `timestamp` is
used as given; an omitted one invokes the field's default factory. -/
def mkTaskStatusUpdate (classLoadTime now : Int) (task_id : String)
    (status : TaskStatus) (stage message : Option String)
    (timestamp : Option Int) : Except String TaskStatusUpdateM :=
  match timestamp with
  | some ts => .ok ⟨task_id, status, stage, message, ts⟩
  | none =>
      match callFactory now (timestamp_default_factory classLoadTime) with
      | .ok ts => .ok ⟨task_id, status, stage, message, ts⟩
      | .error e => .error e

/-- pydantic construction of `TaskStage`: a supplied `started_at` is used as
given; an omitted one invokes the field's default factory. -/
def mkTaskStage (classLoadTime now : Int) (name : String)
    (description : Option String) (started_at : Option Int)
    (completed_at : Option Int) : Except String TaskStageM :=
  match started_at with
  | some t => .ok ⟨name, description, t, completed_at⟩
  | none =>
      match callFactory now (started_at_default_factory classLoadTime) with
      | .ok t => .ok ⟨name, description, t, completed_at⟩
      | .error e => .error e

/-! Section C1: the `BaseTask` wrapper's lifecycle emissions
(`src/backend/background/tasks.py`)

`set_stage(stage_name, message)` (lines 96-110) sends
`self.send_update(TaskStatus.PROGRESS, message=message)` — the status of the
emitted update is `PROGRESS` whatever `stage_name` is; `stage_name` is only
logged.  `on_success` (lines 149-156) sends `TaskStatus.SUCCESS` with message
"Task completed successfully"; `on_failure` (lines 158-164) sends
`TaskStatus.FAILURE` with message `f"Task failed: {str(exc)}"`.
`generate_dataset_task` (lines 167-241) opens with
`self.set_stage(TaskStatus.STARTED, message="Task started")` and its
`except` clause re-raises the original exception unchanged (bare `raise`,
line 241). -/

/-- The observable part of one emitted status update. -/
structure Emitted where
  status : TaskStatus
  message : Option String
deriving DecidableEq, Repr

/-- Model of `BaseTask.set_stage`: the update it emits.  The status sent is
`TaskStatus.PROGRESS` (`tasks.py` line 101), independent of the stage name. -/
def set_stage_update (message : Option String) : Emitted :=
  ⟨TaskStatus.PROGRESS, message⟩

/-- Model of `BaseTask.on_success`: the update it emits (`tasks.py` lines 149-156). -/
def on_success_update : Emitted :=
  ⟨TaskStatus.SUCCESS, some "Task completed successfully"⟩

/-- Model of `BaseTask.on_failure`: the update it emits (`tasks.py` lines 158-164). -/
def on_failure_update (exc : String) : Emitted :=
  ⟨TaskStatus.FAILURE, some ("Task failed: " ++ exc)⟩

/-- One run of the wrapped unit of work under Celery dispatch: the task body
(`generate_dataset_task`) first calls
`set_stage(TaskStatus.STARTED, message="Task started")`, then runs the work;
on normal return the worker invokes `on_success`, on an unhandled exception
the body's bare `raise` re-raises it unchanged and the worker invokes
`on_failure`.  Returns the emitted updates in order, paired with the task
outcome as the worker pool sees it. -/
def run_wrapped_task (work : Except String Unit) :
    List Emitted × Except String Unit :=
  let opening := [set_stage_update (some "Task started")]
  match work with
  | .ok () => (opening ++ [on_success_update], .ok ())
  | .error e => (opening ++ [on_failure_update e], .error e)

/-! Section EventBus connection state (`src/backend/core/event_bus.py`)

State relevant to `_ensure_connected` / `publish`:
`_redis` and `_pubsub` are always set and cleared together (lines 45-54,
73-74, 105-106), so their presence is one boolean `connected`.
`pubsubSubs` is the set of channels actually subscribed on the *current*
pubsub object (a fresh pubsub from `connect()` starts unsubscribed);
`channels` is the in-memory tracked dict `self._channels` (its key set). -/

structure BusState where
  connected : Bool
  pubsubSubs : List String
  channels : List String
deriving DecidableEq, Repr

/-- Oracle for the network effects of one `EventBus` call: whether
`connect()` succeeds, whether `redis.ping()` succeeds, which
`pubsub.subscribe(c)` calls succeed, and the result of `redis.publish`
(`none` = the send raises; `some n` = it returns receiver count `n`). -/
structure BrokerEnv where
  connectOk : Bool
  pingOk : Bool
  subscribeOk : String → Bool
  publishReceivers : String → Option Nat

/-- Model of `EventBus.connect` (lines 38-55): on success installs a fresh redis
connection and a fresh (unsubscribed) pubsub; on failure clears both and
raises.  Returns the new state and whether it raised.  (The `while` guard
`self._redis is not None and self._pubsub is not None: return` is the
already-connected short-circuit.) -/
def busConnect (env : BrokerEnv) (s : BusState) : Bool × BusState :=
  if s.connected then (true, s)
  else if env.connectOk then
    (true, { connected := true, pubsubSubs := [], channels := s.channels })
  else
    (false, { connected := false, pubsubSubs := [], channels := s.channels })

/-- The resubscription loop of `_ensure_connected` (lines 78-80): subscribe
the fresh pubsub to each tracked channel in order; a raising `subscribe`
aborts the loop (the exception propagates to the surrounding `except`).
Returns whether every subscribe succeeded and the channels subscribed so
far. -/
def resubscribeLoop (ok : String → Bool) : List String → Bool × List String
  | [] => (true, [])
  | c :: cs =>
      if ok c then
        let r := resubscribeLoop ok cs
        (r.1, c :: r.2)
      else (false, [])

/-- Model of `EventBus._ensure_connected` (lines 57-87).  Branches:
no connection → `connect()` (lines 59-65); connection present → `ping`
(lines 68-70); ping failed → drop the connection, `connect()` again and
resubscribe every tracked channel, any exception yielding `False`
(lines 71-87). -/
def ensure_connected (env : BrokerEnv) (s : BusState) : Bool × BusState :=
  if ¬ s.connected then
    busConnect env s
  else if env.pingOk then
    (true, s)
  else
    let dropped : BusState :=
      { connected := false, pubsubSubs := [], channels := s.channels }
    let c := busConnect env dropped
    if c.1 then
      let r := resubscribeLoop env.subscribeOk s.channels
      (r.1, { c.2 with pubsubSubs := r.2 })
    else
      (false, c.2)

/-- Model of `EventBus.publish` (lines 110-124): ensure the connection (returning
`False` if that fails), serialize and send, return `response > 0`; any
exception from the send is caught and yields `False`.  The returned state
is the bus state after the call. -/
def publish (env : BrokerEnv) (s : BusState) (channel : String) : Bool × BusState :=
  let e := ensure_connected env s
  if ¬ e.1 then (false, e.2)
  else
    match env.publishReceivers channel with
    | none => (false, e.2)
    | some n => (decide (0 < n), e.2)

/-- Model of `EventBus.publish_task_update` (lines 126-131): one `publish` call on the
per-task channel. -/
def publish_task_update (env : BrokerEnv) (s : BusState) (task_id : String) :
    Bool × BusState :=
  publish env s (taskChannel task_id)

/-! Section C3: the `EventBus.listen` consumption loop (lines 148-192)

One loop iteration is abstracted by its observable outcome: the connection
check failed (sleep `RECONNECT_DELAY`, continue); a message was polled and
parsed (yield it); no message was pending (sleep, continue); an exception was
raised anywhere in the iteration body (including a JSON parse failure); or
`asyncio.CancelledError` reached the loop (break).  A finite script models
one run of the loop; script exhaustion is `self._running` going false. -/

/-- A record yielded by `listen`: the parsed payload tagged with its source
channel (lines 163-170). -/
structure BusRecord where
  channel : String
  payload : String
deriving DecidableEq, Repr

/-- Outcome of one iteration of the `while self._running` body. -/
inductive ListenEvent where
  | connFail
  | msg (r : BusRecord)
  | noMsg
  | errored (e : String)
  | cancelled
deriving DecidableEq, Repr

/-- An element of the sequence `listen` yields: a normal record, or the one
explicit error record of lines 186-189. -/
inductive ListenOut where
  | record (r : BusRecord)
  | errorRecord (e : String)
deriving DecidableEq, Repr

/-- Value of `max_consecutive_errors` (line 154). -/
def max_consecutive_errors : Nat := 5

/-- The `listen` loop (lines 156-192), with `errs` the current value of
`consecutive_errors` (initially 0; the code never resets it inside the
loop).  On an exception the counter is incremented; at the threshold one
explicit error record is yielded and the loop breaks; below it the loop
sleeps and continues. -/
def listenRun (errs : Nat) : List ListenEvent → List ListenOut
  | [] => []
  | ev :: rest =>
      match ev with
      | .connFail => listenRun errs rest
      | .msg r => ListenOut.record r :: listenRun errs rest
      | .noMsg => listenRun errs rest
      | .cancelled => []
      | .errored e =>
          if max_consecutive_errors ≤ errs + 1 then [ListenOut.errorRecord e]
          else listenRun (errs + 1) rest

/-- Number of `errored` iterations in a script. -/
def countErrored : List ListenEvent → Nat
  | [] => 0
  | ListenEvent.errored _ :: rest => countErrored rest + 1
  | _ :: rest => countErrored rest

/-! Section C4: `BaseTask.send_update` (`src/backend/background/tasks.py`
lines 48-94)

The outcome of the publish attempt made at recursion depth `retry` is
supplied by an oracle `attempt : Nat → PubOutcome`: the `publish_task_update`
coroutine either returned `True`, returned `False`, or raised.  The model
returns the final boolean together with the total time slept in the
`time.sleep(backoff_time)` calls (seconds, as `ℚ`). -/

/-- Outcome of one `event_bus.publish_task_update` attempt as observed by
`send_update`. -/
inductive PubOutcome where
  | ok
  | failed
  | raised
deriving DecidableEq, Repr

/-- Value of `BaseTask._max_update_retries` (`tasks.py` line 30). -/
def max_update_retries : Nat := 3

/-- The backoff slept before retry number `retry + 1`:
`0.5 * (2**retry)` seconds (`tasks.py` lines 72, 86). -/
def backoff_time (retry : Nat) : ℚ := (1 / 2) * 2 ^ retry

/-- Model of `BaseTask.send_update` (lines 48-94).  A `False` result with
`retry < _max_update_retries` sleeps the backoff and recurses (lines 70-77);
past the limit it logs and returns `False` (lines 79-82).  An exception is
caught; below the limit it sleeps and recurses (lines 84-91), past it the
call returns `False` (lines 93-94).  No branch re-raises. -/
def send_update (attempt : Nat → PubOutcome) (retry : Nat) : Bool × ℚ :=
  match attempt retry with
  | .ok => (true, 0)
  | .failed =>
      if _h : retry < max_update_retries then
        let r := send_update attempt (retry + 1)
        (r.1, backoff_time retry + r.2)
      else (false, 0)
  | .raised =>
      if _h : retry < max_update_retries then
        let r := send_update attempt (retry + 1)
        (r.1, backoff_time retry + r.2)
      else (false, 0)
termination_by max_update_retries - retry
decreasing_by
  all_goals simp only [max_update_retries] at *
  all_goals omega

/-! Section C7 and C8: the SSE delivery loop
(`src/backend/api/v1/routes/sse.py`, `event_generator`, lines 18-141)

One `async for` iteration is driven by a script step: either a message
arrived from `event_bus.listen()` (with the current loop time and the
client-disconnection poll result), or `asyncio.CancelledError` propagated to
`event_generator`'s own handler (lines 122-128), or some other exception did
(lines 129-138).  Script exhaustion is `listen()` ending by itself (e.g. its
internal `CancelledError` catch), after which `event_generator` falls through
to `finally` without yielding.  Times are `ℚ` seconds. -/

/-- The fields of a parsed bus message that `event_generator` inspects:
presence of an "error" key (with the optional companion "message"), and the
"task_id" / "status" fields of a task update. -/
structure BusMsg where
  errKey : Option String
  errMessage : Option String
  task_id : Option String
  status : Option String
deriving DecidableEq, Repr

/-- One driving step of the `event_generator` main loop. -/
inductive GenStep where
  | tick (now : ℚ) (disconnected : Bool) (m : BusMsg)
  | cancel
  | exn (e : String)
deriving DecidableEq, Repr

/-- An SSE frame written to the client (the argument of one
`format_sse_message` yield). -/
inductive Frame where
  | connectedFrame (task_id : Option String)
  | subscribeErrorFrame (task_id : Option String)
  | ping (t : ℚ)
  | errorFrame (err : String) (message : String)
  | taskUpdate (m : BusMsg)
  | closing (task_id : String) (status : String)
  | cancelledFrame
deriving DecidableEq, Repr

/-- Value of `ping_interval` (`sse.py` line 65), seconds. -/
def ping_interval : ℚ := 30

/-- The statuses treated as final by the SSE loop (`sse.py` line 109). -/
def sse_terminal_statuses : List String := ["SUCCESS", "FAILURE", "REVOKED"]

/-- The `async for message in event_bus.listen()` loop of `event_generator`
(`sse.py` lines 69-120) together with its exception handlers (122-138).
`lastPing` is `last_ping_time`.  Per iteration, in source order:
client-disconnection check (break, lines 73-77); keep-alive ping
(lines 80-82); bus error records forwarded as error frames (lines 85-96);
task-id filter, only when a task_id was requested (lines 99-100); forward the
update (line 106); terminal-status close, only when a task_id was requested
(lines 109-120). -/
def sseLoop (task_id : Option String) (lastPing : ℚ) :
    List GenStep → List Frame
  | [] => []
  | GenStep.cancel :: _ => [Frame.cancelledFrame]
  | GenStep.exn e :: _ => [Frame.errorFrame "Server error in event stream" e]
  | GenStep.tick now disconnected m :: rest =>
      if disconnected then []
      else
        let doPing := ping_interval < now - lastPing
        let lastPing' := if doPing then now else lastPing
        let pings : List Frame := if doPing then [Frame.ping now] else []
        pings ++
          match m.errKey with
          | some e =>
              Frame.errorFrame e
                  (m.errMessage.getD "Unknown error in event stream") ::
                sseLoop task_id lastPing' rest
          | none =>
              match task_id with
              | some tid =>
                  if m.task_id = some tid then
                    Frame.taskUpdate m ::
                      match m.status with
                      | some st =>
                          if st ∈ sse_terminal_statuses then
                            [Frame.closing tid st]
                          else sseLoop task_id lastPing' rest
                      | none => sseLoop task_id lastPing' rest
                  else sseLoop task_id lastPing' rest
              | none => Frame.taskUpdate m :: sseLoop none lastPing' rest

/-- The whole of `event_generator` (lines 18-141): the initial "connected"
frame (line 41), an error frame when the subscription fails (lines 48-62,
after which the loop is still entered), then the main loop with
`last_ping_time` initialized to the loop time at entry (`t0`, line 66). -/
def event_generator (task_id : Option String) (subOk : Bool) (t0 : ℚ)
    (script : List GenStep) : List Frame :=
  Frame.connectedFrame task_id ::
    ((if subOk then [] else [Frame.subscribeErrorFrame task_id]) ++
      sseLoop task_id t0 script)

/-! Section C9: `ConnectionManager` (`src/backend/core/websocket_manager.py`)

`active_connections` is a Python dict `client_id → WebSocket`; we model it
as an association list with distinct keys preserved by the dict operations,
and a websocket as an opaque identifier `Nat`.  `closedConns` records every
websocket on which `.close()` was attempted (close errors are swallowed at
both call sites, lines 34-37 and 53-57, so the attempt always "closes"). -/

structure CMState where
  active : List (String × Nat)
  closedConns : List Nat
deriving DecidableEq, Repr

/-- Dict lookup `self.active_connections.get(client_id)`. -/
def cmLookup (m : List (String × Nat)) (cid : String) : Option Nat :=
  match m with
  | [] => none
  | (k, v) :: rest => if k = cid then some v else cmLookup rest cid

/-- Dict assignment `self.active_connections[client_id] = websocket`
(line 40): replace the value in place if the key exists, else append. -/
def cmSet (m : List (String × Nat)) (cid : String) (ws : Nat) :
    List (String × Nat) :=
  match m with
  | [] => [(cid, ws)]
  | (k, v) :: rest =>
      if k = cid then (k, ws) :: rest else (k, v) :: cmSet rest cid ws

/-- Dict deletion `del self.active_connections[client_id]` (line 60). -/
def cmErase (m : List (String × Nat)) (cid : String) : List (String × Nat) :=
  match m with
  | [] => []
  | (k, v) :: rest => if k = cid then rest else (k, v) :: cmErase rest cid

/-- Model of `ConnectionManager.connect` (lines 16-42): under the lock, if an entry
exists for `client_id` the old websocket is closed (errors ignored), then the
new websocket is stored under the key. -/
def cmConnect (s : CMState) (cid : String) (ws : Nat) : CMState :=
  match cmLookup s.active cid with
  | some old =>
      { active := cmSet s.active cid ws, closedConns := old :: s.closedConns }
  | none =>
      { active := cmSet s.active cid ws, closedConns := s.closedConns }

/-- Model of `ConnectionManager.disconnect` (lines 44-61): if an entry exists, close
it (errors ignored) and remove it; otherwise do nothing. -/
def cmDisconnect (s : CMState) (cid : String) : CMState :=
  match cmLookup s.active cid with
  | some old =>
      { active := cmErase s.active cid, closedConns := old :: s.closedConns }
  | none => s

/-- Model of `ConnectionManager.send_update` (lines 63-115).  The websocket used, if
any, is the one found under `client_id` at lookup time (line 85).  `sendOk`
says whether `websocket.send_json` on that connection completes (its
`client_state.CONNECTED` guard and every exception path fall through to
deregistration, lines 103-115).  Returns the reported boolean, the state
after the call, and the websocket the send was attempted on. -/
def cmSendUpdate (s : CMState) (cid : String) (sendOk : Nat → Bool) :
    Bool × CMState × Option Nat :=
  match cmLookup s.active cid with
  | none => (false, s, none)
  | some ws =>
      if sendOk ws then (true, s, some ws)
      else (false, cmDisconnect s cid, some ws)

/-! Section: theorems settling the claims. -/

/-- C10: constructing a `TaskStatusUpdate` without a `timestamp` (or a
`TaskStage` without `started_at`) invokes the field's default factory, which
is the non-callable value `datetime.now(timezone.utc)`, so construction
raises `TypeError` instead of defaulting to the current time; a construction
that supplies the timestamp succeeds and carries exactly the supplied value,
so every successfully constructed record has an explicitly supplied
timestamp. -/
theorem C10_default_factory_not_callable :
    (∀ (classLoadTime now : Int) (tid : String) (st : TaskStatus)
        (stage msg : Option String),
        mkTaskStatusUpdate classLoadTime now tid st stage msg none
          = .error "TypeError: datetime.datetime object is not callable")
    ∧ (∀ (classLoadTime now : Int) (name : String) (d : Option String)
        (c : Option Int),
        mkTaskStage classLoadTime now name d none c
          = .error "TypeError: datetime.datetime object is not callable")
    ∧ (∀ (classLoadTime now : Int) (tid : String) (st : TaskStatus)
        (stage msg : Option String) (ts : Int),
        mkTaskStatusUpdate classLoadTime now tid st stage msg (some ts)
          = .ok ⟨tid, st, stage, msg, ts⟩) :=
  ⟨fun _ _ _ _ _ _ => rfl, fun _ _ _ _ _ => rfl, fun _ _ _ _ _ _ _ => rfl⟩

/-- C1 counterexample: in a wrapped run the update emitted before the unit of
work carries status `PROGRESS`, not `STARTED` (`set_stage` always sends
`TaskStatus.PROGRESS`, `tasks.py` line 101); indeed no update with status
`STARTED` is ever emitted in the run. -/
theorem C1_counterexample :
    ((run_wrapped_task (.ok ())).1.head?.map Emitted.status
        = some TaskStatus.PROGRESS)
    ∧ TaskStatus.PROGRESS ≠ TaskStatus.STARTED
    ∧ ∀ u ∈ (run_wrapped_task (.ok ())).1, u.status ≠ TaskStatus.STARTED := by
  refine ⟨rfl, by decide, by decide⟩

/-- C1 (amended): around every wrapped unit of work, before handing control
to the work the wrapper emits an update with status `PROGRESS` and message
"Task started" (the `STARTED` label is only logged); on normal return it
emits the terminal `SUCCESS` update; on an unhandled exception it emits the
terminal `FAILURE` update whose message contains the exception's message, and
the exception is re-raised unchanged so the worker pool's own failure
accounting still applies. -/
theorem C1_wrapped_task_lifecycle :
    (∀ work : Except String Unit,
        (run_wrapped_task work).1.head?
          = some ⟨TaskStatus.PROGRESS, some "Task started"⟩)
    ∧ (run_wrapped_task (.ok ())
        = ([⟨TaskStatus.PROGRESS, some "Task started"⟩,
            ⟨TaskStatus.SUCCESS, some "Task completed successfully"⟩], .ok ()))
    ∧ ∀ e : String,
        run_wrapped_task (.error e)
          = ([⟨TaskStatus.PROGRESS, some "Task started"⟩,
              ⟨TaskStatus.FAILURE, some ("Task failed: " ++ e)⟩], .error e)
        ∧ ∃ p, "Task failed: " ++ e = p ++ e := by
  refine ⟨fun work => ?_, rfl, fun e => ⟨rfl, "Task failed: ", rfl⟩⟩
  rcases work with u | e
  · rfl
  · rfl

/-- C2 counterexample: for task id "t1", `publish_task_update` sends on the
per-task channel only; no copy goes to the global channel
`task-status-updates`. -/
theorem C2_counterexample :
    publish_task_update_channels "t1" = ["task-status-updates:t1"]
    ∧ TASK_STATUS_CHANNEL ∉ publish_task_update_channels "t1" := by
  exact ⟨rfl, by decide⟩

/-- C2 (amended): every status update published for a task goes to that
task's per-task channel `<prefix>:<task_id>` and to it only;
`publish_task_update` performs no additional send on the global channel
`<prefix>`, so the global channel does not receive a copy of the update. -/
theorem C2_per_task_channel_only :
    ∀ task_id : String,
      publish_task_update_channels task_id = [taskChannel task_id]
      ∧ TASK_STATUS_CHANNEL ∉ publish_task_update_channels task_id := by
  intro tid
  refine ⟨rfl, ?_⟩
  simp only [publish_task_update_channels, List.mem_singleton]
  intro h
  have hl := congrArg String.length h
  rw [taskChannel, String.length_append, String.length_append] at hl
  have h1 : (":" : String).length = 1 := rfl
  omega

/-- Unfolding of `send_update` on a successful attempt. -/
lemma send_update_ok (attempt : Nat → PubOutcome) (retry : Nat)
    (h : attempt retry = PubOutcome.ok) : send_update attempt retry = (true, 0) := by
  rw [send_update, h]

/-- Unfolding of `send_update` on a failing/raising attempt below the retry
limit: sleep the backoff and recurse. -/
lemma send_update_step (attempt : Nat → PubOutcome) (retry : Nat)
    (h : attempt retry ≠ PubOutcome.ok) (hr : retry < max_update_retries) :
    send_update attempt retry
      = ((send_update attempt (retry + 1)).1,
         backoff_time retry + (send_update attempt (retry + 1)).2) := by
  rw [send_update]
  cases ha : attempt retry with
  | ok => exact absurd ha h
  | failed => simp [hr]
  | raised => simp [hr]

/-- Unfolding of `send_update` on a failing/raising attempt at the retry
limit: log and return `False`, no raise. -/
lemma send_update_stop (attempt : Nat → PubOutcome) (retry : Nat)
    (h : attempt retry ≠ PubOutcome.ok) (hr : ¬ retry < max_update_retries) :
    send_update attempt retry = (false, 0) := by
  rw [send_update]
  cases ha : attempt retry with
  | ok => exact absurd ha h
  | failed => simp [hr]
  | raised => simp [hr]

/-- C4: `send_update` retries a failing or raising publish with exponential
backoff `0.5 * 2^attempt` up to `_max_update_retries = 3` retries; after
exhausting the retries it returns `False` (never re-raising — every branch
returns a boolean) having slept `0.5*2^0 + 0.5*2^1 + 0.5*2^2`; and if the
attempt after `k` failures succeeds, it returns `True` having slept exactly
`0.5*2^0 + ... + 0.5*2^(k-1)`. -/
theorem C4_send_update_retry_backoff :
    (∀ attempt : Nat → PubOutcome,
        (∀ r, r ≤ max_update_retries → attempt r ≠ PubOutcome.ok) →
        send_update attempt 0
          = (false, ∑ i in Finset.range max_update_retries, backoff_time i))
    ∧ (∀ (attempt : Nat → PubOutcome) (k : Nat),
        k ≤ max_update_retries →
        (∀ r, r < k → attempt r ≠ PubOutcome.ok) →
        attempt k = PubOutcome.ok →
        send_update attempt 0 = (true, ∑ i in Finset.range k, backoff_time i)) := by
  constructor
  · intro attempt h
    have e3 := send_update_stop attempt 3 (h 3 (by decide)) (by decide)
    have e2 := send_update_step attempt 2 (h 2 (by decide)) (by decide)
    have e1 := send_update_step attempt 1 (h 1 (by decide)) (by decide)
    have e0 := send_update_step attempt 0 (h 0 (by decide)) (by decide)
    rw [e0, e1, e2, e3]
    norm_num [max_update_retries, backoff_time, Finset.sum_range_succ]
  · intro attempt k hk h hok
    rw [show max_update_retries = 3 from rfl] at hk
    interval_cases k
    · rw [send_update_ok attempt 0 hok]
      norm_num
    · have e1 := send_update_ok attempt 1 hok
      have e0 := send_update_step attempt 0 (h 0 (by decide)) (by decide)
      rw [e0, e1]
      norm_num [backoff_time, Finset.sum_range_succ]
    · have e2 := send_update_ok attempt 2 hok
      have e1 := send_update_step attempt 1 (h 1 (by decide)) (by decide)
      have e0 := send_update_step attempt 0 (h 0 (by decide)) (by decide)
      rw [e0, e1, e2]
      norm_num [backoff_time, Finset.sum_range_succ]
    · have e3 := send_update_ok attempt 3 hok
      have e2 := send_update_step attempt 2 (h 2 (by decide)) (by decide)
      have e1 := send_update_step attempt 1 (h 1 (by decide)) (by decide)
      have e0 := send_update_step attempt 0 (h 0 (by decide)) (by decide)
      rw [e0, e1, e2, e3]
      norm_num [backoff_time, Finset.sum_range_succ]

/-- Witness for C4: the first two publish attempts fail and the third
succeeds; the call returns `True` having slept `0.5*1 + 0.5*2`. -/
theorem C4_send_update_retry_backoff_witness :
    send_update (fun r => if r < 2 then PubOutcome.failed else PubOutcome.ok) 0
      = (true, ∑ i in Finset.range 2, backoff_time i) :=
  C4_send_update_retry_backoff.2
    (fun r => if r < 2 then PubOutcome.failed else PubOutcome.ok) 2
    (by decide)
    (fun r hr => by interval_cases r <;> decide)
    (by decide)

/-- During a healthy environment (connect and ping both succeed), the
connection check always passes, from any prior bus state. -/
lemma ensure_connected_healthy (env : BrokerEnv) (s : BusState)
    (hc : env.connectOk = true) (hp : env.pingOk = true) :
    (ensure_connected env s).1 = true := by
  unfold ensure_connected busConnect
  by_cases h : s.connected <;> simp [h, hc, hp]

/-- C5: `EventBus.publish` returns `False` when the connection cannot be
(re)established or the send raises (no branch re-raises: the model is a total
function into `Bool × BusState`); when connected it returns `True` iff the
broker reported at least one receiver; and after any publish — in particular
a failed one — a subsequent publish under a healthy broker with at least one
subscriber returns `True`. -/
theorem C5_publish_best_effort :
    (∀ (env : BrokerEnv) (s : BusState) (ch : String),
        (ensure_connected env s).1 = false →
        publish env s ch = (false, (ensure_connected env s).2))
    ∧ (∀ (env : BrokerEnv) (s : BusState) (ch : String),
        (ensure_connected env s).1 = true →
        env.publishReceivers ch = none →
        (publish env s ch).1 = false)
    ∧ (∀ (env : BrokerEnv) (s : BusState) (ch : String) (n : Nat),
        (ensure_connected env s).1 = true →
        env.publishReceivers ch = some n →
        ((publish env s ch).1 = true ↔ 0 < n))
    ∧ (∀ (env1 env2 : BrokerEnv) (s : BusState) (ch1 ch2 : String) (n : Nat),
        env2.connectOk = true → env2.pingOk = true →
        env2.publishReceivers ch2 = some n → 0 < n →
        (publish env2 (publish env1 s ch1).2 ch2).1 = true) := by
  refine ⟨?_, ?_, ?_, ?_⟩
  · intro env s ch h
    simp [publish, h]
  · intro env s ch h hrecv
    simp [publish, h, hrecv]
  · intro env s ch n h hrecv
    simp [publish, h, hrecv]
  · intro env1 env2 s ch1 ch2 n hc hp hrecv hn
    generalize (publish env1 s ch1).2 = s1
    have h := ensure_connected_healthy env2 s1 hc hp
    simp [publish, h, hrecv, hn]

/-- Witness for C5: a publish that fails for lack of subscribers (broker
reports 0 receivers) does not stop a later publish with one subscriber from
succeeding. -/
theorem C5_publish_best_effort_witness :
    (publish ⟨true, true, fun _ => true, fun _ => some 1⟩
        (publish ⟨true, true, fun _ => true, fun _ => some 0⟩
          ⟨false, [], []⟩ "task-status-updates:t1").2
        "task-status-updates:t1").1 = true :=
  C5_publish_best_effort.2.2.2
    ⟨true, true, fun _ => true, fun _ => some 0⟩
    ⟨true, true, fun _ => true, fun _ => some 1⟩
    ⟨false, [], []⟩ "task-status-updates:t1" "task-status-updates:t1" 1
    rfl rfl rfl (by decide)

/-- A resubscription loop that raised no exception subscribed every tracked
channel, in order. -/
lemma resubscribeLoop_all_ok (ok : String → Bool) :
    ∀ cs : List String, (resubscribeLoop ok cs).1 = true →
      (resubscribeLoop ok cs).2 = cs := by
  intro cs
  induction cs with
  | nil => intro _; rfl
  | cons c rest ih =>
      intro h
      by_cases hc : ok c
      · simp only [resubscribeLoop, hc, if_pos] at h ⊢
        rw [ih h]
      · simp [resubscribeLoop, hc] at h

/-- C6: whenever the health check finds the existing connection dead (ping
fails) and still reports success, it has reconnected and re-subscribed the
fresh pubsub connection to every channel of the in-memory tracked
subscription set: after the call the bus is connected and each previously
tracked channel is subscribed on the current connection. -/
theorem C6_reconnect_resubscribes :
    ∀ (env : BrokerEnv) (s : BusState),
      s.connected = true → env.pingOk = false →
      (ensure_connected env s).1 = true →
      (ensure_connected env s).2.connected = true
      ∧ (ensure_connected env s).2.pubsubSubs = s.channels
      ∧ (ensure_connected env s).2.channels = s.channels
      ∧ ∀ c ∈ s.channels, c ∈ (ensure_connected env s).2.pubsubSubs := by
  intro env s hconn hping hres
  by_cases hc : env.connectOk = true
  · have hloop : (resubscribeLoop env.subscribeOk s.channels).1 = true := by
      simp only [ensure_connected, busConnect, hconn, hping, hc] at hres
      simpa using hres
    have hsubs := resubscribeLoop_all_ok env.subscribeOk s.channels hloop
    simp only [ensure_connected, busConnect, hconn, hping, hc]
    simp [hsubs]
  · exfalso
    simp only [ensure_connected, busConnect, hconn, hping] at hres
    simp [hc] at hres

/-- Witness for C6: a bus connected with two tracked channels, whose ping
fails and whose reconnect and resubscribes succeed, ends up re-subscribed to
both channels. -/
theorem C6_reconnect_resubscribes_witness :
    (ensure_connected ⟨true, false, fun _ => true, fun _ => none⟩
        ⟨true, ["task-status-updates"], ["task-status-updates",
          "task-status-updates:t1"]⟩).2.pubsubSubs
      = ["task-status-updates", "task-status-updates:t1"] :=
  (C6_reconnect_resubscribes ⟨true, false, fun _ => true, fun _ => none⟩
    ⟨true, ["task-status-updates"], ["task-status-updates",
      "task-status-updates:t1"]⟩ rfl rfl (by decide)).2.1

/-- Dict assignment makes the assigned key map to the assigned value. -/
lemma cmLookup_cmSet_self (m : List (String × Nat)) (cid : String) (ws : Nat) :
    cmLookup (cmSet m cid ws) cid = some ws := by
  induction m with
  | nil => simp [cmSet, cmLookup]
  | cons p rest ih =>
      by_cases h : p.1 = cid
      · simp [cmSet, cmLookup, h]
      · simp [cmSet, cmLookup, h, ih]

/-- Dict assignment leaves the key set unchanged when the key is present and
appends the key when it is absent. -/
lemma cmSet_keys (m : List (String × Nat)) (cid : String) (ws : Nat) :
    (cmSet m cid ws).map Prod.fst
      = if (cmLookup m cid).isSome then m.map Prod.fst
        else m.map Prod.fst ++ [cid] := by
  induction m with
  | nil => simp [cmSet, cmLookup]
  | cons p rest ih =>
      by_cases h : p.1 = cid
      · simp [cmSet, cmLookup, h]
      · simp [cmSet, cmLookup, h, ih]
        by_cases hs : (cmLookup rest cid).isSome <;> simp [hs]

/-- A key that fails lookup is not among the dict's keys. -/
lemma cmLookup_none_not_mem (m : List (String × Nat)) (cid : String)
    (h : cmLookup m cid = none) : cid ∉ m.map Prod.fst := by
  induction m with
  | nil => simp
  | cons p rest ih =>
      by_cases hp : p.1 = cid
      · simp [cmLookup, hp] at h
      · simp only [cmLookup, hp, if_neg, ne_eq, not_false_iff] at h
        simp only [List.map_cons, List.mem_cons]
        rintro (rfl | hmem)
        · exact hp rfl
        · exact ih h hmem

/-- C9: `ConnectionManager.connect` replaces the entry for an already
registered `client_id` after closing the old websocket (close errors
ignored), so lookups — and therefore every subsequent `send_update` for
that `client_id` — use the newly registered websocket; distinctness of the
registry's keys (at most one active connection per `client_id`) is
preserved; and with no prior entry nothing is closed. -/
theorem C9_connect_replaces_connection :
    (∀ (s : CMState) (cid : String) (ws : Nat),
        cmLookup (cmConnect s cid ws).active cid = some ws)
    ∧ (∀ (s : CMState) (cid : String) (ws old : Nat),
        cmLookup s.active cid = some old →
        (cmConnect s cid ws).closedConns = old :: s.closedConns)
    ∧ (∀ (s : CMState) (cid : String) (ws : Nat),
        (s.active.map Prod.fst).Nodup →
        ((cmConnect s cid ws).active.map Prod.fst).Nodup)
    ∧ (∀ (s : CMState) (cid : String) (ws : Nat) (sendOk : Nat → Bool),
        (cmSendUpdate (cmConnect s cid ws) cid sendOk).2.2 = some ws)
    ∧ (∀ (s : CMState) (cid : String) (ws : Nat),
        cmLookup s.active cid = none →
        (cmConnect s cid ws).closedConns = s.closedConns) := by
  have hlook : ∀ (s : CMState) (cid : String) (ws : Nat),
      cmLookup (cmConnect s cid ws).active cid = some ws := by
    intro s cid ws
    cases h : cmLookup s.active cid <;>
      simp [cmConnect, h, cmLookup_cmSet_self]
  refine ⟨hlook, ?_, ?_, ?_, ?_⟩
  · intro s cid ws old h
    simp [cmConnect, h]
  · intro s cid ws hnd
    have hkeys := cmSet_keys s.active cid ws
    cases h : cmLookup s.active cid with
    | some old =>
        simp only [cmConnect, h]
        rw [hkeys, h]
        simpa using hnd
    | none =>
        simp only [cmConnect, h]
        rw [hkeys, h]
        simp only [Option.isSome_none, Bool.false_eq_true, if_neg,
          not_false_iff]
        have hmem := cmLookup_none_not_mem s.active cid h
        simp [List.nodup_append, hnd, hmem]
  · intro s cid ws sendOk
    have h := hlook s cid ws
    by_cases hs : sendOk ws = true <;> simp [cmSendUpdate, h, hs]
  · intro s cid ws h
    simp [cmConnect, h]

/-- Witness for C9: registering websocket 9 for client "c1", which already
holds websocket 7, closes 7, and the next send for "c1" is attempted on 9. -/
theorem C9_connect_replaces_connection_witness :
    (cmConnect ⟨[("c1", 7)], []⟩ "c1" 9).closedConns = 7 :: []
    ∧ (cmSendUpdate (cmConnect ⟨[("c1", 7)], []⟩ "c1" 9) "c1"
        (fun _ => true)).2.2 = some 9
    ∧ ((cmConnect ⟨[("c1", 7)], []⟩ "c1" 9).active.map Prod.fst).Nodup :=
  ⟨C9_connect_replaces_connection.2.1 ⟨[("c1", 7)], []⟩ "c1" 9 7 rfl,
   C9_connect_replaces_connection.2.2.2.1 ⟨[("c1", 7)], []⟩ "c1" 9
     (fun _ => true),
   C9_connect_replaces_connection.2.2.1 ⟨[("c1", 7)], []⟩ "c1" 9
     (by decide)⟩

/-- Any explicit error record in the output of the `listen` loop is its last
element, and it is the only error record of the run. -/
lemma listenRun_error_final :
    ∀ (script : List ListenEvent) (errs : Nat) (pre post : List ListenOut)
      (e : String),
      listenRun errs script = pre ++ ListenOut.errorRecord e :: post →
      post = [] ∧ ∀ e2, ListenOut.errorRecord e2 ∉ pre := by
  intro script
  induction script with
  | nil =>
      intro errs pre post e h
      simp [listenRun] at h
  | cons ev rest ih =>
      intro errs pre post e h
      cases ev with
      | connFail => exact ih errs pre post e h
      | noMsg => exact ih errs pre post e h
      | cancelled =>
          simp only [listenRun] at h
          exact absurd h.symm (List.append_ne_nil_of_right_ne_nil pre
            (List.cons_ne_nil _ _))
      | msg r =>
          simp only [listenRun] at h
          cases pre with
          | nil => simp at h
          | cons p ps =>
              simp only [List.cons_append, List.cons.injEq] at h
              obtain ⟨hp, htl⟩ := h
              obtain ⟨hpost, hpre⟩ := ih errs ps post e htl
              refine ⟨hpost, fun e2 => ?_⟩
              simp only [List.mem_cons, not_or]
              exact ⟨by rw [← hp]; simp, hpre e2⟩
      | errored e' =>
          simp only [listenRun] at h
          by_cases hth : max_consecutive_errors ≤ errs + 1
          · rw [if_pos hth] at h
            cases pre with
            | nil =>
                simp only [List.nil_append, List.cons.injEq] at h
                refine ⟨h.2.symm, fun e2 => ?_⟩
                simp
            | cons p ps =>
                simp only [List.cons_append, List.cons.injEq] at h
                exact absurd h.2.symm (List.append_ne_nil_of_right_ne_nil ps
                  (List.cons_ne_nil _ _))
          · rw [if_neg hth] at h
            exact ih (errs + 1) pre post e h

/-- If the loop starts below the error threshold and the script carries
enough erroring iterations to reach it (with no cancellation), the run ends
with an explicit error record. -/
lemma listenRun_threshold_terminates :
    ∀ (script : List ListenEvent) (errs : Nat),
      errs < max_consecutive_errors →
      ListenEvent.cancelled ∉ script →
      max_consecutive_errors ≤ errs + countErrored script →
      ∃ pre e, listenRun errs script = pre ++ [ListenOut.errorRecord e] := by
  intro script
  induction script with
  | nil =>
      intro errs hlt _ hcount
      simp only [countErrored] at hcount
      omega
  | cons ev rest ih =>
      intro errs hlt hnc hcount
      have hncr : ListenEvent.cancelled ∉ rest := by
        intro hmem
        exact hnc (List.mem_cons_of_mem _ hmem)
      cases ev with
      | connFail =>
          simp only [countErrored] at hcount
          obtain ⟨pre, e, hpe⟩ := ih errs hlt hncr hcount
          exact ⟨pre, e, by simpa [listenRun] using hpe⟩
      | noMsg =>
          simp only [countErrored] at hcount
          obtain ⟨pre, e, hpe⟩ := ih errs hlt hncr hcount
          exact ⟨pre, e, by simpa [listenRun] using hpe⟩
      | msg r =>
          simp only [countErrored] at hcount
          obtain ⟨pre, e, hpe⟩ := ih errs hlt hncr hcount
          refine ⟨ListenOut.record r :: pre, e, ?_⟩
          simp [listenRun, hpe]
      | cancelled => exact absurd (List.mem_cons_self _ _) hnc
      | errored e' =>
          by_cases hth : max_consecutive_errors ≤ errs + 1
          · exact ⟨[], e', by simp [listenRun, hth]⟩
          · simp only [countErrored] at hcount
            obtain ⟨pre, e, hpe⟩ := ih (errs + 1) (by omega) hncr (by omega)
            refine ⟨pre, e, ?_⟩
            simp [listenRun, hth, hpe]

/-- C3: in every run of the `listen` loop, reaching the consecutive-error
threshold (5) makes the run yield exactly one explicit error record as its
final element — nothing is yielded after it; any run whose erroring
iterations reach the threshold (without being cancelled first) does end that
way; and an error below the threshold does not terminate the run — the loop
sleeps and continues with the remaining iterations. -/
theorem C3_listen_error_threshold :
    (∀ (errs : Nat) (script : List ListenEvent) (pre post : List ListenOut)
        (e : String),
        listenRun errs script = pre ++ ListenOut.errorRecord e :: post →
        post = [] ∧ ∀ e2, ListenOut.errorRecord e2 ∉ pre)
    ∧ (∀ script : List ListenEvent,
        ListenEvent.cancelled ∉ script →
        max_consecutive_errors ≤ countErrored script →
        ∃ pre e, listenRun 0 script = pre ++ [ListenOut.errorRecord e])
    ∧ (∀ (errs : Nat) (e : String) (rest : List ListenEvent),
        errs + 1 < max_consecutive_errors →
        listenRun errs (ListenEvent.errored e :: rest)
          = listenRun (errs + 1) rest) := by
  refine ⟨fun errs script => listenRun_error_final script errs, ?_, ?_⟩
  · intro script hnc hcount
    exact listenRun_threshold_terminates script 0
      (by simp [max_consecutive_errors]) hnc (by omega)
  · intro errs e rest hlt
    have hth : ¬ max_consecutive_errors ≤ errs + 1 := by omega
    simp [listenRun, hth]

/-- Witness for C3: a script of five straight erroring iterations followed by
a message makes the run end with one error record (the trailing message is
never yielded). -/
theorem C3_listen_error_threshold_witness :
    ∃ pre e,
      listenRun 0 (List.replicate 5 (ListenEvent.errored "boom")
          ++ [ListenEvent.msg ⟨"task-status-updates:t1", "payload"⟩])
        = pre ++ [ListenOut.errorRecord e] :=
  C3_listen_error_threshold.2.1
    (List.replicate 5 (ListenEvent.errored "boom")
      ++ [ListenEvent.msg ⟨"task-status-updates:t1", "payload"⟩])
    (by decide) (by decide)

/-- No closing frame occurs in the list. -/
def NoClosing (xs : List Frame) : Prop :=
  ∀ c st, Frame.closing c st ∉ xs

/-- Either no closing frame occurs, or the list ends with its one and only
closing frame ("exactly one final closing event and then the stream ends"). -/
def ClosingFinal (xs : List Frame) : Prop :=
  NoClosing xs ∨ ∃ ys c st, xs = ys ++ [Frame.closing c st] ∧ NoClosing ys

lemma noClosing_nil : NoClosing [] := by
  intro c st hm
  simp at hm

lemma noClosing_append {a b : List Frame} (ha : NoClosing a)
    (hb : NoClosing b) : NoClosing (a ++ b) := by
  intro c st hm
  rcases List.mem_append.mp hm with h | h
  · exact ha c st h
  · exact hb c st h

lemma noClosing_cons {f : Frame} {xs : List Frame}
    (hf : ∀ c st, f ≠ Frame.closing c st) (hxs : NoClosing xs) :
    NoClosing (f :: xs) := by
  intro c st hm
  rcases List.mem_cons.mp hm with h | h
  · exact hf c st h.symm
  · exact hxs c st h

lemma noClosing_ping (p : Prop) [Decidable p] (t : ℚ) :
    NoClosing (if p then [Frame.ping t] else []) := by
  split
  · intro c st hm; simp at hm
  · exact noClosing_nil

lemma closingFinal_extend {chunk rest : List Frame} (hc : NoClosing chunk)
    (hr : ClosingFinal rest) : ClosingFinal (chunk ++ rest) := by
  rcases hr with hno | ⟨ys, c, st, rfl, hys⟩
  · exact Or.inl (noClosing_append hc hno)
  · exact Or.inr ⟨chunk ++ ys, c, st, by simp, noClosing_append hc hys⟩

lemma closingFinal_cons {f : Frame} {rest : List Frame}
    (hf : ∀ c st, f ≠ Frame.closing c st) (hr : ClosingFinal rest) :
    ClosingFinal (f :: rest) := by
  have h := @closingFinal_extend [f] rest (noClosing_cons hf noClosing_nil) hr
  simpa using h

/-- Every run of the SSE loop yields a frame list in which a closing frame,
if present at all, is unique and final. -/
lemma sseLoop_closingFinal :
    ∀ (script : List GenStep) (tid : Option String) (lastPing : ℚ),
      ClosingFinal (sseLoop tid lastPing script) := by
  intro script
  induction script with
  | nil =>
      intro tid lastPing
      exact Or.inl (by intro c st hm; simp [sseLoop] at hm)
  | cons step rest ih =>
      intro tid lastPing
      cases step with
      | cancel => exact Or.inl (by intro c st hm; simp [sseLoop] at hm)
      | exn e => exact Or.inl (by intro c st hm; simp [sseLoop] at hm)
      | tick now disc m =>
          cases disc with
          | true => exact Or.inl (by intro c st hm; simp [sseLoop] at hm)
          | false =>
              simp only [sseLoop, Bool.false_eq_true, if_neg,
                not_false_iff]
              refine closingFinal_extend (noClosing_ping _ now) ?_
              cases hek : m.errKey with
              | some e =>
                  exact closingFinal_cons (by intro c st h; simp at h)
                    (ih tid _)
              | none =>
                  cases tid with
                  | none =>
                      exact closingFinal_cons (by intro c st h; simp at h)
                        (ih none _)
                  | some t =>
                      dsimp only
                      by_cases hmt : m.task_id = some t
                      · rw [if_pos hmt]
                        cases hst : m.status with
                        | none =>
                            exact closingFinal_cons
                              (by intro c st h; simp at h) (ih (some t) _)
                        | some st =>
                            dsimp only
                            by_cases hterm : st ∈ sse_terminal_statuses
                            · rw [if_pos hterm]
                              exact Or.inr ⟨[Frame.taskUpdate m], t, st, rfl,
                                by intro c s2 h; simp at h⟩
                            · rw [if_neg hterm]
                              exact closingFinal_cons
                                (by intro c s2 h; simp at h) (ih (some t) _)
                      · rw [if_neg hmt]
                        exact ih (some t) _

/-- C7 counterexample: on the global stream (no requested task_id) a
forwarded event with terminal status `SUCCESS` does not close the stream —
a further frame is yielded after it and no closing frame is ever emitted
(the close at `sse.py` line 109 is guarded by `if task_id and ...`). -/
theorem C7_counterexample :
    sseLoop none 0
        [GenStep.tick 1 false ⟨none, none, some "t1", some "SUCCESS"⟩,
         GenStep.tick 2 false ⟨none, none, some "t1", some "PROGRESS"⟩]
      = [Frame.taskUpdate ⟨none, none, some "t1", some "SUCCESS"⟩,
         Frame.taskUpdate ⟨none, none, some "t1", some "PROGRESS"⟩]
    ∧ NoClosing (sseLoop none 0
        [GenStep.tick 1 false ⟨none, none, some "t1", some "SUCCESS"⟩,
         GenStep.tick 2 false ⟨none, none, some "t1", some "PROGRESS"⟩]) := by
  have h : sseLoop none 0
      [GenStep.tick 1 false ⟨none, none, some "t1", some "SUCCESS"⟩,
       GenStep.tick 2 false ⟨none, none, some "t1", some "PROGRESS"⟩]
      = [Frame.taskUpdate ⟨none, none, some "t1", some "SUCCESS"⟩,
         Frame.taskUpdate ⟨none, none, some "t1", some "PROGRESS"⟩] := by
    norm_num [sseLoop, ping_interval]
  refine ⟨h, ?_⟩
  rw [h]
  intro c st hm
  simp at hm

/-- C7 (amended): on a stream with a requested task_id, once a forwarded
event's status is one of the terminal values (SUCCESS, FAILURE, REVOKED),
the stream emits exactly one final "connection_closing" event and ends —
whatever iterations remained in the run are abandoned and no frame follows
the closing frame; and in every run of the delivery loop a closing frame, if
emitted at all, is unique and final.  (On the global stream, without a
requested task_id, a terminal event does not close the stream.) -/
theorem C7_terminal_close :
    (∀ (tid : String) (lastPing now : ℚ) (m : BusMsg) (st : String)
        (rest : List GenStep),
        m.errKey = none → m.task_id = some tid → m.status = some st →
        st ∈ sse_terminal_statuses →
        sseLoop (some tid) lastPing (GenStep.tick now false m :: rest)
          = (if ping_interval < now - lastPing then [Frame.ping now] else [])
              ++ [Frame.taskUpdate m, Frame.closing tid st])
    ∧ (∀ (tid : Option String) (lastPing : ℚ) (script : List GenStep),
        ClosingFinal (sseLoop tid lastPing script)) := by
  constructor
  · intro tid lastPing now m st rest hek hmt hst hterm
    simp only [sseLoop, Bool.false_eq_true, if_neg, not_false_iff,
      hek, hmt, hst]
    simp [hterm]
  · intro tid lastPing script
    exact sseLoop_closingFinal script tid lastPing

/-- Witness for C7: a per-task stream that forwards a `SUCCESS` event emits
the update, then exactly one closing frame, and abandons the rest of the
script. -/
theorem C7_terminal_close_witness :
    sseLoop (some "t1") 0
        [GenStep.tick 1 false ⟨none, none, some "t1", some "SUCCESS"⟩,
         GenStep.tick 2 false ⟨none, none, some "t1", some "PROGRESS"⟩]
      = (if ping_interval < 1 - 0 then [Frame.ping 1] else [])
          ++ [Frame.taskUpdate ⟨none, none, some "t1", some "SUCCESS"⟩,
              Frame.closing "t1" "SUCCESS"] :=
  C7_terminal_close.1 "t1" 0 1 ⟨none, none, some "t1", some "SUCCESS"⟩
    "SUCCESS" [GenStep.tick 2 false ⟨none, none, some "t1", some "PROGRESS"⟩]
    rfl rfl rfl (by decide)

/-- C8 counterexample: cancellation of the loop is not silent — the
`except asyncio.CancelledError` handler (`sse.py` lines 122-128) yields one
more frame (`{"type": "cancelled", ...}`) to the client after the
cancellation. -/
theorem C8_counterexample :
    sseLoop (some "t1") 0 [GenStep.cancel] = [Frame.cancelledFrame]
    ∧ ([Frame.cancelledFrame] : List Frame) ≠ [] :=
  ⟨rfl, by simp⟩

/-- C8 (amended): cancellation of the SSE loop terminates the stream as a
non-error termination: no error frame is emitted; exactly one final frame of
type "cancelled" is emitted, and no frame of any kind follows it — the
remaining iterations of the run are abandoned. -/
theorem C8_cancellation_nonerror :
    ∀ (tid : Option String) (lastPing : ℚ) (rest : List GenStep),
      sseLoop tid lastPing (GenStep.cancel :: rest) = [Frame.cancelledFrame]
      ∧ (∀ e msg, Frame.cancelledFrame ≠ Frame.errorFrame e msg) := by
  intro tid lastPing rest
  exact ⟨rfl, fun e msg => by simp⟩

/-- Witness for C1: a unit of work raising `ValueError("bad schema")` makes
the wrapper emit a `FAILURE` update whose message contains "bad schema", and
the exception reaches the worker pool unchanged. -/
theorem C1_wrapped_task_lifecycle_witness :
    run_wrapped_task (.error "bad schema")
      = ([⟨TaskStatus.PROGRESS, some "Task started"⟩,
          ⟨TaskStatus.FAILURE, some ("Task failed: " ++ "bad schema")⟩],
         .error "bad schema")
    ∧ ∃ p, "Task failed: " ++ "bad schema" = p ++ "bad schema" :=
  C1_wrapped_task_lifecycle.2.2 "bad schema"

/-- Witness for C2: the concrete sends of task "t1". -/
theorem C2_per_task_channel_only_witness :
    publish_task_update_channels "t1" = [taskChannel "t1"]
    ∧ TASK_STATUS_CHANNEL ∉ publish_task_update_channels "t1" :=
  C2_per_task_channel_only "t1"

/-- Witness for C8: a cancelled per-task stream with pending events emits the
single "cancelled" frame and nothing else. -/
theorem C8_cancellation_nonerror_witness :
    sseLoop (some "t1") 0
        [GenStep.cancel,
         GenStep.tick 1 false ⟨none, none, some "t1", some "SUCCESS"⟩]
      = [Frame.cancelledFrame]
    ∧ (∀ e msg, Frame.cancelledFrame ≠ Frame.errorFrame e msg) :=
  C8_cancellation_nonerror (some "t1") 0
    [GenStep.tick 1 false ⟨none, none, some "t1", some "SUCCESS"⟩]

/-- Witness for C10: a concrete construction omitting the timestamp fails
with the non-callable-factory `TypeError`. -/
theorem C10_default_factory_not_callable_witness :
    mkTaskStatusUpdate 0 5 "t1" TaskStatus.STARTED none none none
      = .error "TypeError: datetime.datetime object is not callable" :=
  C10_default_factory_not_callable.1 0 5 "t1" TaskStatus.STARTED none none

end LitMiner
